import Mathlib

/-!
Shallow embedding of the bias/fairness detection and mitigation pipeline of
the WEB-for-ALL browser extension, and proofs settling the specification
claims against it.

Modelling conventions:
* JS strings are modelled as `List Char` (index = character position) or as
  `String` where no indexing is needed.
* JS numbers are modelled as `ℚ`; all numeric literals in this pipeline are
  exact decimals. Where `NaN` can arise (the skewness computation), a JS
  number is modelled as `JsNum` with an explicit `nan` constructor.
* Fallible JS code (functions whose body can throw) is modelled in
  `Except String`; a thrown error is `Except.error msg`.
* JS objects used as string-keyed maps are modelled as insertion-ordered
  association lists `List (String × α)`.
* The nonterminating `while (exec)` scan loop is modelled with an explicit
  fuel parameter; `none` means the loop did not finish within the fuel.
-/

namespace BiasSpec

/-! ### JS numeric values with NaN (used by the skewness computation) -/

/-- A JS number that may be `NaN`: `none` is `NaN`, `some q` a finite value. -/
abbrev JsNum := Option ℚ

/-- JS subtraction; `NaN` propagates. -/
def jsSub (a b : JsNum) : JsNum := do pure ((← a) - (← b))

/-- JS addition; `NaN` propagates. -/
def jsAdd (a b : JsNum) : JsNum := do pure ((← a) + (← b))

/-- JS `Math.pow(x, 3)`; `NaN` propagates. -/
def jsPow3 (a : JsNum) : JsNum := do pure ((← a) ^ 3)

/-- JS division. `NaN` propagates; division by zero yields a non-finite JS
result (`NaN` for `0/0`, which is the only zero-denominator case reachable
in this code), collapsed to `none`. -/
def jsDiv (a b : JsNum) : JsNum :=
  match a, b with
  | some x, some y => if y = 0 then none else some (x / y)
  | _, _ => none

/-- JS `>` comparison against a finite constant; any comparison with `NaN`
is `false`. -/
def jsGt (a : JsNum) (c : ℚ) : Bool :=
  match a with
  | some x => decide (c < x)
  | none => false

/-! ### Category Pattern Scanner (src/background/biasDetectionSystem.js)

The regexes in `getBiasPatterns` all have the shape
`/\b(alt1|alt2) suffix\b/i`: an alternation of two literal words followed by
a literal suffix, with word boundaries at both ends and the `i` flag. Each
regex is embedded as the list of its two expanded literal alternatives
(e.g. `/\b(he|she) is assumed\b/i` becomes the alternatives
`"he is assumed"` and `"she is assumed"`), matched case-insensitively with
word-boundary checks. Every alternative begins and ends with a word
character, so `\b` at the start means "preceding character absent or
non-word" and `\b` at the end means "following character absent or
non-word". -/

/-- The regex word-character class `[A-Za-z0-9_]` underlying `\b`. -/
def isWordChar (c : Char) : Bool := c.isAlphanum || c = '_'

/-- Case-insensitive character comparison (the regex `i` flag). -/
def charIEq (a b : Char) : Bool := a.toLower = b.toLower

/-- Does `pat` occur, case-insensitively, as a prefix of `rest`? -/
def matchesFrom : (rest pat : List Char) → Bool
  | _, [] => true
  | [], _ :: _ => false
  | c :: cs, p :: ps => charIEq c p && matchesFrom cs ps

/-- Does `pat` occur, case-insensitively, in `text` at position `i`? -/
def matchesAt (text pat : List Char) (i : ℕ) : Bool :=
  matchesFrom (text.drop i) pat

/-- Word boundary `\b` before position `i`, for a pattern whose first
character is a word character: `i` is the start of the text or the previous
character is not a word character. -/
def boundaryBefore (text : List Char) : ℕ → Bool
  | 0 => true
  | j + 1 => !(isWordChar (text.getD j ' '))

/-- Word boundary `\b` at position `j` (one past the match), for a pattern
whose last character is a word character: the character at `j` is absent or
not a word character (the default `' '` is returned past the end of the
text and is not a word character). -/
def boundaryAfter (text : List Char) (j : ℕ) : Bool :=
  !(isWordChar (text.getD j ' '))

/-- Does the expanded alternative `alt` match at position `i` with word
boundaries on both sides? -/
def matchAlternativeAt (text alt : List Char) (i : ℕ) : Bool :=
  boundaryBefore text i && matchesAt text alt i &&
    boundaryAfter text (i + alt.length)

/-- `RegExp.prototype.exec` for the embedded patterns: the leftmost
position with a match wins, and at a fixed position the alternatives are
tried in regex alternation order. Returns the match index and the matched
slice of the source text (original case), i.e. `match.index` and
`match[0]`. -/
def execRegex (alts : List (List Char)) (text : List Char) : Option (ℕ × List Char) :=
  (List.range (text.length + 1)).findSome? fun i =>
    alts.findSome? fun alt =>
      if matchAlternativeAt text alt i then
        some (i, (text.drop i).take alt.length)
      else none

/-- A `BiasPattern`: one source regex, expanded into its literal
alternatives, plus its severity weight. -/
structure BiasPattern where
  alts : List (List Char)
  weight : ℚ
deriving Repr, DecidableEq

/-- One concrete pattern match: matched text, its index, and a bounded
context window. -/
structure BiasInstance where
  text : List Char
  index : ℕ
  context : List Char
deriving Repr, DecidableEq

/-- `getMatchContext`: the ±50-character window around the match index,
via `text.slice(max(0, index-50), min(length, index+50))`. -/
def getMatchContext (text : List Char) (index : ℕ) : List Char :=
  let contextSize := 50
  let start := index - contextSize
  let stop := min text.length (index + contextSize)
  (text.drop start).take (stop - start)

/-- `findPatternMatches`, with explicit fuel for the source's
`while ((match = pattern.pattern.exec(text)) !== null)` loop. The regexes
in `getBiasPatterns` are created WITHOUT the `g` flag, so `exec` ignores
`lastIndex` and always returns the first match of the text; the loop body
therefore re-receives the same match forever whenever the text matches at
all. `none` models the loop not having terminated within `fuel`
iterations. The scanned object is read as `content.text || ''`; the
argument is the value of its `text` property (`none` when absent). -/
def findPatternMatchesFuel : ℕ → Option (List Char) → BiasPattern → Option (List BiasInstance)
  | 0, _, _ => none
  | fuel + 1, contentText, pat =>
    let text := contentText.getD []
    match execRegex pat.alts text with
    | none => some []
    | some (i, m) =>
      (findPatternMatchesFuel fuel contentText pat).map
        (fun rest => { text := m, index := i, context := getMatchContext text i } :: rest)

/-- `calculateSeverity`: fixed thresholds 0.9 / 0.7 / 0.4. -/
def calculateSeverity (score : ℚ) : String :=
  if score ≥ 9/10 then "critical"
  else if score ≥ 7/10 then "high"
  else if score ≥ 4/10 then "medium"
  else "low"

/-- The first gender pattern: `/\b(he|she) is assumed\b/i`, weight 0.8. -/
def genderAssumedPattern : BiasPattern :=
  { alts := ["he is assumed".toList, "she is assumed".toList], weight := 4/5 }

/-- The second gender pattern: `/\b(male|female) only\b/i`, weight 0.9. -/
def genderOnlyPattern : BiasPattern :=
  { alts := ["male only".toList, "female only".toList], weight := 9/10 }

/-- The first disability pattern: `/\b(normal|abnormal) person\b/i`,
weight 0.9. -/
def disabilityPersonPattern : BiasPattern :=
  { alts := ["normal person".toList, "abnormal person".toList], weight := 9/10 }

/-- The second disability pattern: `/\b(suffering|victim) of\b/i`,
weight 0.7. -/
def disabilityOfPattern : BiasPattern :=
  { alts := ["suffering of".toList, "victim of".toList], weight := 7/10 }

/-- `getBiasPatterns`: the per-category pattern table; categories without
an entry yield `[]`. -/
def getBiasPatterns (category : String) : List BiasPattern :=
  if category = "gender" then [genderAssumedPattern, genderOnlyPattern]
  else if category = "disability" then [disabilityPersonPattern, disabilityOfPattern]
  else []

/-- Aggregate result for one category. -/
structure CategoryScore where
  score : ℚ
  instances : List BiasInstance
  severity : String
deriving Repr, DecidableEq

/-- `analyzeCategoryBias` (fuel-indexed through `findPatternMatchesFuel`):
for each pattern, find the matches; when some exist, accumulate
`score += matchCount × weight` and append the instances. -/
def analyzeCategoryBiasFuel (fuel : ℕ) (contentText : Option (List Char))
    (category : String) : Option CategoryScore := do
  let acc ← (getBiasPatterns category).foldlM
    (fun (acc : ℚ × List BiasInstance) pat => do
      let ms ← findPatternMatchesFuel fuel contentText pat
      if ms.length > 0 then
        pure (acc.1 + (ms.length : ℚ) * pat.weight, acc.2 ++ ms)
      else
        pure acc)
    ((0 : ℚ), [])
  pure { score := acc.1, instances := acc.2, severity := calculateSeverity acc.1 }

/-- The fixed category list of `BiasDetectionSystem`. -/
def biasCategories : List String :=
  ["gender", "race", "age", "disability", "socioeconomic",
   "cultural", "language", "religion", "nationality"]

/-- `detectBias` (fuel-indexed): scan every category and keep those with a
positive score, in category order. -/
def detectBiasFuel (fuel : ℕ) (contentText : Option (List Char)) :
    Option (List (String × CategoryScore)) :=
  biasCategories.foldlM
    (fun acc cat => do
      let cs ← analyzeCategoryBiasFuel fuel contentText cat
      if cs.score > 0 then pure (acc ++ [(cat, cs)]) else pure acc)
    []

/-! ### Privacy Handler (src/background/privacyHandler.js) -/

/-- The privacy settings record held by `PrivacyHandler`. -/
structure PrivacySettings where
  dataRetentionDays : ℚ
  anonymizationLevel : String
  consentStatus : Bool
deriving Repr, DecidableEq

/-- The constructor's initial settings. -/
def defaultPrivacySettings : PrivacySettings :=
  { dataRetentionDays := 30, anonymizationLevel := "high", consentStatus := false }

/-- Location payload consumed by `generalizeLocation`. -/
structure LocationData where
  country : String
  timezone : String
deriving Repr, DecidableEq

/-- Generalised location produced by `generalizeLocation`. -/
structure RegionData where
  region : String
  timezone : String
deriving Repr, DecidableEq

/-- Per-feature usage payload consumed by `processFeatures`. -/
structure FeatureUsage where
  used : Bool
  frequency : ℚ
deriving Repr, DecidableEq

/-- Per-feature anonymized output of `processFeatures`. -/
structure AnonymizedFeature where
  used : Bool
  frequency : String
deriving Repr, DecidableEq

/-- The raw input object passed to `analyzeContent` / `processData`: a JS
object whose relevant optional properties are `text` (read by the scanner),
`userIdentifiers`, `location` and `features` (read by the privacy
measures). -/
structure ContentInput where
  text : Option (List Char)
  userIdentifiers : Option String
  location : Option LocationData
  features : Option (List (String × FeatureUsage))
deriving Repr, DecidableEq

/-- `hashIdentifier`. Modelled abstractly: the source requests a SHA-256
digest (and in fact stores the un-awaited Promise of it); only the data
flow matters to the claims, never the digest value. -/
def hashIdentifier (s : String) : String := "sha256:" ++ s

/-- `generalizeLocation`: keep only coarse region (country) and timezone. -/
def generalizeLocation (l : LocationData) : RegionData :=
  { region := l.country, timezone := l.timezone }

/-- `generalizeFrequency`: bucket a numeric frequency into low/medium/high
at thresholds 5 and 20. -/
def generalizeFrequency (frequency : ℚ) : String :=
  if frequency ≤ 5 then "low"
  else if frequency ≤ 20 then "medium"
  else "high"

/-- `processFeatures`: keep the `used` flag, bucket the frequency. -/
def processFeatures (features : List (String × FeatureUsage)) :
    List (String × AnonymizedFeature) :=
  features.map fun kf =>
    (kf.1, { used := kf.2.used, frequency := generalizeFrequency kf.2.frequency })

/-- Anonymized output of `applyPrivacyMeasures`; every property is
conditional on the corresponding input property being present (and, for
`userIdentifiers`, truthy: the empty string is falsy in JS). -/
structure AnonymizedData where
  userHash : Option String
  region : Option RegionData
  features : Option (List (String × AnonymizedFeature))
deriving Repr, DecidableEq

/-- `applyPrivacyMeasures`: build the anonymized object from the raw
input; the input is never mutated. -/
def applyPrivacyMeasures (data : ContentInput) : AnonymizedData :=
  { userHash :=
      match data.userIdentifiers with
      | some s => if s = "" then none else some (hashIdentifier s)
      | none => none
    region := data.location.map generalizeLocation
    features := data.features.map processFeatures }

/-- The result object of `processData`: `{success, data}` on the consent
path, `{success:false, error}` when the thrown consent error is caught. -/
structure ProcessResult where
  success : Bool
  data : Option AnonymizedData
  error : Option String
deriving Repr, DecidableEq

/-- `processData`: throws (and catches into a failure result) when
`consentStatus` is false, otherwise applies the privacy measures. -/
def processData (ps : PrivacySettings) (data : ContentInput) : ProcessResult :=
  if ps.consentStatus then
    { success := true, data := some (applyPrivacyMeasures data), error := none }
  else
    { success := false, data := none, error := some "User consent not provided" }

/-- A partial settings object passed to `updateSettings`; `none` means the
property is absent from the argument. -/
structure PartialSettings where
  dataRetentionDays : Option ℚ
  anonymizationLevel : Option String
  consentStatus : Option Bool
deriving Repr, DecidableEq

/-- Result object of `updateSettings`. -/
structure SettingsResult where
  success : Bool
  settings : PrivacySettings
deriving Repr, DecidableEq

/-- `updateSettings`: spread-merge the argument over the stored settings
(`{...this.privacySettings, ...settings}`), store the merged record and
return it. Returns the result object together with the new stored state. -/
def updateSettings (ps : PrivacySettings) (s : PartialSettings) :
    SettingsResult × PrivacySettings :=
  let merged : PrivacySettings :=
    { dataRetentionDays := s.dataRetentionDays.getD ps.dataRetentionDays
      anonymizationLevel := s.anonymizationLevel.getD ps.anonymizationLevel
      consentStatus := s.consentStatus.getD ps.consentStatus }
  ({ success := true, settings := merged }, merged)

/-! ### Bias Detection Coordinator (`analyzeContent`)

`BiasDetectionSystem.analyzeContent` destructures
`privacyHandler.processData(content, ...)` WITHOUT checking `success`
(`processData` returns a failure object rather than throwing, and returns
no `metadata` property), then calls `this.extractContext(processedContent)`.
The class declares no method `extractContext` (and does not extend any
class), so this call throws
`TypeError: this.extractContext is not a function`, which the surrounding
try/catch converts into `{success:false, error}`. The methods
`getUserPreferences`, `updateAdaptiveThresholds`, `calculateConfidence` and
`getPerformanceMetrics` used later in the body are missing as well. -/

/-- Per-category recommendation table (`getCategoryRecommendations`). -/
def getCategoryRecommendations (category : String) : List String :=
  if category = "gender" then
    ["Use gender-neutral language", "Avoid gender stereotypes",
     "Include diverse perspectives"]
  else if category = "disability" then
    ["Use person-first language", "Focus on capabilities",
     "Avoid ableist language"]
  else []

/-- Lower-case a JS string modelled as a char list (`text.toLowerCase()`). -/
def lowerChars (s : List Char) : List Char := s.map Char.toLower

/-- `findAlternatives`: look up the lower-cased matched text in the fixed
per-category alternatives table; unmapped phrases yield `[]`. -/
def findAlternatives (category : String) (text : List Char) : List String :=
  let t := lowerChars text
  if category = "gender" then
    if t = "he is assumed".toList ∨ t = "she is assumed".toList then
      ["they are assumed", "the person is assumed"]
    else []
  else if category = "disability" then
    if t = "normal person".toList then ["person", "individual"]
    else if t = "suffering from".toList then ["living with", "experiencing"]
    else []
  else []

/-- `getLanguageAlternatives`: map each instance's text to its
alternatives. -/
def getLanguageAlternatives (category : String) (instances : List BiasInstance) :
    List (List Char × List String) :=
  instances.map fun inst => (inst.text, findAlternatives category inst.text)

/-- Per-category suggestion record built by
`generateMitigationStrategies`. -/
structure CategorySuggestion where
  recommendations : List String
  alternatives : List (List Char × List String)
deriving Repr, DecidableEq

/-- `generateMitigationStrategies` over the detected results. -/
def generateMitigationStrategies (results : List (String × CategoryScore)) :
    List (String × CategorySuggestion) :=
  results.map fun cr =>
    (cr.1, { recommendations := getCategoryRecommendations cr.1
             alternatives := getLanguageAlternatives cr.1 cr.2.instances })

/-- The report assembled on `analyzeContent`'s success path (reduced to the
fields the claims mention; this path is unreachable, see below). -/
structure AnalyzeReport where
  biasDetected : List (String × CategoryScore)
  confidence : ℚ
deriving Repr, DecidableEq

/-- The `text` property read off the object that `analyzeContent` forwards
to `detectBias`: that object is the anonymized output of the privacy
handler (or `undefined` when `success` was false), and `applyPrivacyMeasures`
never produces a `text` property, so `content.text || ''` reads `''`. -/
def anonymizedText (_processed : Option AnonymizedData) : Option (List Char) :=
  none

/-- `analyzeContent`'s body inside its try/catch, fuel-indexed through the
scanner. The statements after the `extractContext` call are unreachable
(the call throws); they are nevertheless embedded in source order for
fidelity, with each further missing method modelled as the TypeError it
would throw. -/
def analyzeContentE (fuel : ℕ) (ps : PrivacySettings) (content : ContentInput) :
    Except String AnalyzeReport := do
  let pd := processData ps content
  let processedContent := pd.data
  let _context ← (Except.error "this.extractContext is not a function" :
    Except String Unit)
  let results ←
    match detectBiasFuel fuel (anonymizedText processedContent) with
    | some r => Except.ok r
    | none => Except.error "nonterminating pattern scan"
  let _suggestions := generateMitigationStrategies results
  let _prefs ← (Except.error "this.getUserPreferences is not a function" :
    Except String Unit)
  let _thresholds ← (Except.error "this.updateAdaptiveThresholds is not a function" :
    Except String Unit)
  let _confidence ← (Except.error "this.calculateConfidence is not a function" :
    Except String ℚ)
  Except.error "this.getPerformanceMetrics is not a function"

/-- The externally returned result object of `analyzeContent`. -/
structure AnalyzeResult where
  success : Bool
  biasDetected : Option (List (String × CategoryScore))
  confidence : Option ℚ
  error : Option String
deriving Repr, DecidableEq

/-- `analyzeContent`: the try/catch boundary, downgrading a thrown error to
`{success:false, error}`. -/
def analyzeContent (fuel : ℕ) (ps : PrivacySettings) (content : ContentInput) :
    AnalyzeResult :=
  match analyzeContentE fuel ps content with
  | .ok r =>
    { success := true, biasDetected := some r.biasDetected,
      confidence := some r.confidence, error := none }
  | .error e =>
    { success := false, biasDetected := none, confidence := none, error := some e }

/-! ### Association-list maps (JS `Map` / plain objects) -/

/-- Lookup in an insertion-ordered association list. -/
def lookupA {α : Type} : List (String × α) → String → Option α
  | [], _ => none
  | (k, v) :: t, key => if k = key then some v else lookupA t key

/-- `Map.prototype.set`: replace the binding in place if the key is
present, else append it. -/
def setA {α : Type} : List (String × α) → String → α → List (String × α)
  | [], key, v => [(key, v)]
  | (k, w) :: t, key, v =>
    if k = key then (key, v) :: t else (k, w) :: setA t key v

theorem lookupA_setA_self {α : Type} (m : List (String × α)) (k : String) (v : α) :
    lookupA (setA m k v) k = some v := by
  induction m with
  | nil => simp [setA, lookupA]
  | cons hd t ih =>
    by_cases h : hd.1 = k <;> simp [setA, lookupA, h, ih]

/-! ### Model Lifecycle Manager (src/background/mlModelManager.js)

Semantic version strings `"major.minor.patch"` are modelled by their parsed
triple `(major, minor, patch)`: `incrementVersion` parses the string with
`split('.').map(Number)` and re-renders it, which on the well-formed
versions the manager itself produces is exactly the triple round-trip. -/

/-- A parsed semantic version `(major, minor, patch)`. -/
abbrev Version := ℕ × ℕ × ℕ

/-- Strict lexicographic order on `(major, minor, patch)`. -/
def versionLt (a b : Version) : Prop :=
  a.1 < b.1 ∨ (a.1 = b.1 ∧ (a.2.1 < b.2.1 ∨ (a.2.1 = b.2.1 ∧ a.2.2 < b.2.2)))

instance (a b : Version) : Decidable (versionLt a b) := by
  unfold versionLt; infer_instance

/-- `incrementVersion`: bump exactly the patch component. -/
def incrementVersion (v : Version) : Version := (v.1, v.2.1, v.2.2 + 1)

/-- Model parameters as far as the manager inspects them: `type` and
`features` are read (optionally) by the fallback synthesis; the rest of the
parameters object is opaque to the manager and modelled as an opaque
payload list. -/
structure Params where
  ptype : Option String
  features : Option (List String)
  rest : List (String × ℚ)
deriving Repr, DecidableEq

/-- A model configuration object: its (optional) `parameters` property. -/
structure ModelConfig where
  parameters : Option Params
deriving Repr, DecidableEq

/-- Capability flags of the fallback model data. -/
structure Capabilities where
  textProcessing : Bool
  imageAnalysis : Bool
  audioProcessing : Bool
deriving Repr, DecidableEq

/-- Model data: either fetched from the remote source or synthesized
locally by `getFallbackModelData`. -/
structure ModelData where
  id : String
  name : String
  version : Version
  ptype : String
  features : List String
  fallbackMode : Bool
  capabilities : Capabilities
deriving Repr, DecidableEq

/-- JS `a || b` for an optional string: `undefined` and the empty string
are falsy. -/
def orFalsy (a : Option String) (b : String) : String :=
  match a with
  | some s => if s = "" then b else s
  | none => b

/-- `getFallbackModelData`: synthesize stub model data from the id and
configuration, tagged `fallbackMode: true`. -/
def getFallbackModelData (modelId : String) (modelConfig : ModelConfig) : ModelData :=
  { id := modelId
    name := "Fallback " ++ modelId
    version := (1, 0, 0)
    ptype := orFalsy (modelConfig.parameters.bind Params.ptype) "default"
    features := (modelConfig.parameters.bind Params.features).getD []
    fallbackMode := true
    capabilities :=
      { textProcessing := true, imageAnalysis := false, audioProcessing := false } }

/-- Per-model metadata held in `modelMetadata`. -/
structure Metadata where
  version : Version
  lastUpdated : String
  parameters : Option Params
  performance : List (String × List (String × ℚ))
deriving Repr, DecidableEq

/-- The value stored in `models`: `initializeModel` stores
`{...modelConfig, data}`, `updateModel` stores the new config itself
(which has no `data` property, hence the `Option`). -/
structure StoredModel where
  parameters : Option Params
  data : Option ModelData
deriving Repr, DecidableEq

/-- The manager's two maps (`currentModelVersion` is set to `'1.0.0'` in
the constructor and never reassigned, so it is the constant `(1,0,0)`). -/
structure MMState where
  models : List (String × StoredModel)
  modelMetadata : List (String × Metadata)
deriving Repr, DecidableEq

/-- Result object of `initializeModel`. -/
structure InitResult where
  success : Bool
  modelId : Option String
  error : Option String
deriving Repr, DecidableEq

/-- `initializeModel`. The remote fetch is the only external effect; its
outcome is passed in as `fetchResult` (`none` models any fetch failure:
network error, non-ok status or bad payload), and `now` is the
`new Date().toISOString()` timestamp. Fresh metadata (version `1.0.0`,
empty performance history) is built unconditionally and both maps are
overwritten. -/
def initializeModel (fetchResult : Option ModelData) (now : String)
    (s : MMState) (modelId : String) (modelConfig : ModelConfig) :
    InitResult × MMState :=
  let metadata : Metadata :=
    { version := (1, 0, 0)
      lastUpdated := now
      parameters := modelConfig.parameters
      performance := [] }
  let modelData :=
    match fetchResult with
    | some d => d
    | none => getFallbackModelData modelId modelConfig
  let s' : MMState :=
    { models := setA s.models modelId
        { parameters := modelConfig.parameters, data := some modelData }
      modelMetadata := setA s.modelMetadata modelId metadata }
  ({ success := true, modelId := some modelId, error := none }, s')

/-- Result object of `updateModel`. -/
structure UpdateResult where
  success : Bool
  version : Option Version
  error : Option String
deriving Repr, DecidableEq

/-- `updateModel`: fail with `'Model not found'` when `models` has no such
id; otherwise bump the metadata's patch version, stamp `lastUpdated`,
replace the parameters, and store the new config (the performance history
is left untouched). The unreachable case of an id present in `models` but
absent from `modelMetadata` would throw a TypeError reading `.version` of
`undefined`, caught into a failure result. -/
def updateModel (now : String) (s : MMState) (modelId : String)
    (newModelConfig : ModelConfig) : UpdateResult × MMState :=
  match lookupA s.models modelId with
  | none => ({ success := false, version := none, error := some "Model not found" }, s)
  | some _ =>
    match lookupA s.modelMetadata modelId with
    | none =>
      ({ success := false, version := none,
         error := some "TypeError: cannot read version of undefined" }, s)
    | some metadata =>
      let md' : Metadata :=
        { version := incrementVersion metadata.version
          lastUpdated := now
          parameters := newModelConfig.parameters
          performance := metadata.performance }
      let s' : MMState :=
        { models := setA s.models modelId
            { parameters := newModelConfig.parameters, data := none }
          modelMetadata := setA s.modelMetadata modelId md' }
      ({ success := true, version := some md'.version, error := none }, s')

/-! ### Statistical Bias Analyzer (src/unnamed/part_011, `biasDetection.js`) -/

/-- The protected attributes of the statistical analyzer module. -/
def statsProtectedAttributes : List String :=
  ["gender", "age", "ethnicity", "disability", "language"]

/-- The distinct values of a list in first-occurrence order: the own keys
of the JS object built by repeated `obj[value] = ...` assignments. -/
def jsKeys (l : List String) : List String :=
  l.foldl (fun acc v => if v ∈ acc then acc else acc ++ [v]) []

/-- `Math.min` over a non-empty spread of rationals. The `[]` case would be
`Math.min()` = `+Infinity` in JS; it is only reached when the surrounding
computation is already non-finite and is given a placeholder value that the
caller's guard filters out. -/
def jsMinQ : List ℚ → ℚ
  | [] => 0
  | a :: l => l.foldl min a

/-- `Math.max` over a non-empty spread of rationals; `[]` as in `jsMinQ`. -/
def jsMaxQ : List ℚ → ℚ
  | [] => 0
  | a :: l => l.foldl max a

/-- Favorable outcomes of group `k`: positions where the attribute equals
`k` and the prediction strictly exceeds the 0.8 confidence threshold. The
source iterates `attributeValues` and reads `predArray[index]`; an index
past the prediction batch reads `undefined`, which never exceeds the
threshold, so pairing by `zip` is faithful. -/
def favorableCount (preds : List ℚ) (attrs : List String) (k : String) : ℕ :=
  ((preds.zip attrs).filter fun pa => decide (pa.2 = k) && decide ((4 : ℚ)/5 < pa.1)).length

/-- Group size of `k`: every occurrence in `attributeValues` counts. -/
def groupCount (attrs : List String) (k : String) : ℕ := attrs.count k

/-- Favorable-outcome rate of group `k`. -/
def rate (preds : List ℚ) (attrs : List String) (k : String) : ℚ :=
  (favorableCount preds attrs k : ℚ) / (groupCount attrs k : ℚ)

/-- The per-group rate list (`ratios` in the source), in first-occurrence
group order. -/
def groupRates (preds : List ℚ) (attrs : List String) : List ℚ :=
  (jsKeys attrs).map (rate preds attrs)

/-- `calculateDisparateImpact`: `Math.min(...ratios) / Math.max(...ratios)`.
All rates are ≥ 0, so the JS result is `NaN` precisely when the maximum is
0 (including the empty-attribute case); `none` models that `NaN`. -/
def calculateDisparateImpact (preds : List ℚ) (attrs : List String) : Option ℚ :=
  let ratios := groupRates preds attrs
  if jsMaxQ ratios = 0 then none
  else some (jsMinQ ratios / jsMaxQ ratios)

/-- `calculateDistribution`: value shares keyed in first-occurrence
order. -/
def calculateDistribution (values : List String) : List (String × ℚ) :=
  let total : ℚ := values.length
  (jsKeys values).map fun k => (k, (values.count k : ℚ) / total)

/-- One underrepresentation finding of `checkRepresentation`. -/
structure RepIssue where
  attrName : String
  representation : ℚ
deriving Repr, DecidableEq

/-- `checkRepresentation`: for each protected attribute present in the
metadata, flag it when the minimum value-share is below 0.10. An attribute
with an empty value list yields an empty distribution; `Math.min()` of an
empty spread is `+Infinity`, which is never below 0.10, so it is skipped. -/
def checkRepresentation (metadata : List (String × List String)) : List RepIssue :=
  statsProtectedAttributes.foldl
    (fun acc attr =>
      match lookupA metadata attr with
      | none => acc
      | some vals =>
        match (calculateDistribution vals).map Prod.snd with
        | [] => acc
        | r :: rs =>
          let minRepresentation := rs.foldl min r
          if minRepresentation < 1/10 then
            acc ++ [{ attrName := attr, representation := minRepresentation }]
          else acc)
    []

/-- One systematic-bias pattern record. -/
structure SBPattern where
  ptype : String
  details : String
  affected : List RepIssue
deriving Repr, DecidableEq

/-- The `{patterns, severity}` systematic-bias report. -/
structure SystematicBias where
  patterns : List SBPattern
  severity : String
deriving Repr, DecidableEq

/-- `calculateSkewness`: third central moment over `n`, divided by
`Math.pow(std, 3)`. The `mean` and `std` arguments are whatever the caller
passes — in this code, tf.js tensor objects coerced to numbers. -/
def calculateSkewness (values : List ℚ) (mean std : JsNum) : JsNum :=
  let n : ℚ := values.length
  let m3 := jsDiv
    (values.foldl (fun acc val => jsAdd acc (jsPow3 (jsSub (some val) mean))) (some 0))
    (some n)
  jsDiv m3 (jsPow3 std)

/-- A tf.js `Tensor` coerced to a JS number. `Tensor` defines no `valueOf`
and its `toString` is not numeric, so arithmetic with it yields `NaN`. -/
def tensorAsNumber : JsNum := none

/-- The `skewness` field of `analyzePredictionDistribution`: the source
computes `mean = tf.mean(predictions)` and
`std = tf.moments(predictions).variance.sqrt()` — both TENSORS, not
numbers — and passes them straight into the numeric `calculateSkewness`. -/
def predictionSkewness (preds : List ℚ) : JsNum :=
  calculateSkewness preds tensorAsNumber tensorAsNumber

/-- The `skewed_predictions` pattern record. -/
def skewedPredictionsPattern : SBPattern :=
  { ptype := "skewed_predictions"
    details := "Predictions show significant skew towards certain outcomes"
    affected := [] }

/-- The `underrepresentation` pattern record. -/
def underrepresentationPattern (issues : List RepIssue) : SBPattern :=
  { ptype := "underrepresentation"
    details := "Some groups are underrepresented in the analysis"
    affected := issues }

/-- `detectSystematicBias`: push `skewed_predictions` (severity → medium)
when `skewness > 0.5` — note: the source compares the raw skewness, not its
absolute value — and push `underrepresentation` (severity → high,
overwriting) when any representation issue was found. -/
def detectSystematicBias (preds : List ℚ) (metadata : List (String × List String)) :
    SystematicBias :=
  let skewness := predictionSkewness preds
  let patterns1 : List SBPattern :=
    if jsGt skewness (1/2) then [skewedPredictionsPattern] else []
  let severity1 : String := if jsGt skewness (1/2) then "medium" else "low"
  let representationIssues := checkRepresentation metadata
  if representationIssues.isEmpty then
    { patterns := patterns1, severity := severity1 }
  else
    { patterns := patterns1 ++ [underrepresentationPattern representationIssues]
      severity := "high" }

/-! ### Mitigation Strategy Engine (src/background/biasMitigation.js)

The module declares `CONFIG` and `MITIGATION_STRATEGIES`, but the
identifier `MITIGATION_THRESHOLD` used by `needsMitigation` and
`calculateOptimalThreshold` is declared nowhere in the module or in its
imports; evaluating it throws a `ReferenceError`. -/

/-- The bias-metrics input of the mitigation engine (the fields it
reads). -/
structure BiasMetrics where
  disparateImpact : List (String × ℚ)
  systematicBias : SystematicBias
deriving Repr, DecidableEq

/-- `needsMitigation`. `Array.prototype.some` on an empty array returns
`false` without invoking its callback; on a non-empty array the callback
evaluates the undeclared `MITIGATION_THRESHOLD` and throws a
`ReferenceError`. -/
def needsMitigation (biasMetrics : BiasMetrics) : Except String Bool :=
  if biasMetrics.disparateImpact.isEmpty then
    Except.ok (biasMetrics.systematicBias.severity != "low")
  else
    Except.error "ReferenceError: MITIGATION_THRESHOLD is not defined"

/-- `determineStrategies`: reweighting when some disparate-impact score is
below the literal 0.8; threshold adjustment when systematic-bias patterns
exist; ensemble when systematic-bias severity is high. -/
def determineStrategies (biasMetrics : BiasMetrics) : List String :=
  (if biasMetrics.disparateImpact.any (fun kv => decide (kv.2 < (4 : ℚ)/5)) then
    ["reweighting"] else []) ++
  (if biasMetrics.systematicBias.patterns.length > 0 then
    ["threshold_adjustment"] else []) ++
  (if biasMetrics.systematicBias.severity = "high" then ["ensemble"] else [])

/-- `calculateBalancingWeights`: weight = target share / actual share,
target share = 1 / number of distinct values. -/
def calculateBalancingWeights (distribution : List (String × ℚ)) :
    List (String × ℚ) :=
  let targetProportion : ℚ := 1 / (distribution.length : ℚ)
  distribution.map fun kv => (kv.1, targetProportion / kv.2)

/-- `applyReweighting`: balancing weights per metadata attribute. -/
def applyReweighting (metadata : List (String × List String)) :
    List (String × List (String × ℚ)) :=
  metadata.map fun av => (av.1, calculateBalancingWeights (calculateDistribution av.2))

/-- `calculateOptimalThreshold`: after initializing `threshold = 0.5`, the
guard `disparateImpactScore < MITIGATION_THRESHOLD` evaluates the
undeclared identifier and throws, so no value is ever returned. -/
def calculateOptimalThreshold (_disparateImpactScore : ℚ) : Except String ℚ :=
  Except.error "ReferenceError: MITIGATION_THRESHOLD is not defined"

/-- `adjustThresholds`: an optimal threshold per attribute with a
disparate-impact entry (throws on the first attribute, if any). -/
def adjustThresholds (biasMetrics : BiasMetrics) : Except String (List (String × ℚ)) :=
  biasMetrics.disparateImpact.foldlM
    (fun acc kv => do
      let t ← calculateOptimalThreshold kv.2
      pure (acc ++ [(kv.1, t)]))
    []

/-- `createEnsemble`'s configuration: the current model as a one-member,
equally weighted ensemble. The model handle is abstract (a name). -/
structure EnsembleConfig where
  models : List String
  weights : List ℚ
  combinationStrategy : String
deriving Repr, DecidableEq

/-- `createEnsemble`. -/
def createEnsemble (model : String) : EnsembleConfig :=
  { models := [model], weights := [1], combinationStrategy := "weighted_average" }

/-- The `adjustments` record of the mitigation results. -/
structure Adjustments where
  weights : Option (List (String × List (String × ℚ)))
  thresholds : Option (List (String × ℚ))
  ensemble : Option EnsembleConfig
deriving Repr, DecidableEq

/-- No adjustments yet. -/
def emptyAdjustments : Adjustments :=
  { weights := none, thresholds := none, ensemble := none }

/-- The before/after evaluation produced by `evaluateMitigation`; it
depends on re-running the external model, so its outcome is passed into
`mitigateBias` as a parameter. -/
structure MitigationPerformance where
  improvedSystematicBias : Bool
  disparateImpactDelta : List (String × ℚ)
deriving Repr, DecidableEq

/-- The mitigation results object (`null` on a caught error is the `none`
of the caller's `Option`). -/
structure MitigationResults where
  appliedStrategies : List String
  adjustments : Adjustments
  performance : Option MitigationPerformance
deriving Repr, DecidableEq

/-- `mitigateBias`: gate on `needsMitigation`, apply the selected
strategies in order, then evaluate effectiveness (`evalOutcome` stands for
the model-dependent `evaluateMitigation` call). Any thrown error is caught
and `null` (`none`) is returned. -/
def mitigateBias (model : String) (evalOutcome : Except String MitigationPerformance)
    (metadata : List (String × List String)) (biasMetrics : BiasMetrics) :
    Option MitigationResults :=
  let run : Except String MitigationResults := do
    let need ← needsMitigation biasMetrics
    if need then
      let strategies := determineStrategies biasMetrics
      let adjustments ← strategies.foldlM
        (fun (acc : Adjustments) strategy => do
          if strategy = "reweighting" then
            pure { acc with weights := some (applyReweighting metadata) }
          else if strategy = "threshold_adjustment" then
            let ts ← adjustThresholds biasMetrics
            pure { acc with thresholds := some ts }
          else if strategy = "ensemble" then
            pure { acc with ensemble := some (createEnsemble model) }
          else pure acc)
        emptyAdjustments
      let perf ← evalOutcome
      pure { appliedStrategies := strategies, adjustments := adjustments
             performance := some perf }
    else
      pure { appliedStrategies := [], adjustments := emptyAdjustments
             performance := none }
  match run with
  | .ok r => some r
  | .error _ => none

/-! ### Helper lemmas -/

theorem analyzeContentE_eq (fuel : ℕ) (ps : PrivacySettings) (content : ContentInput) :
    analyzeContentE fuel ps content =
      Except.error "this.extractContext is not a function" := rfl

/-! ### Claims -/

/-- C1: the claim says that for content with no pattern matches,
`analyzeContent` returns a success report with empty `biasDetected` and
confidence 0. In fact `analyzeContent` can never return a success report
for ANY input: its body calls `this.extractContext`, a method the class
does not define, so every call throws a TypeError that the try/catch turns
into a failure result. -/
theorem c1_analyzeContent_never_succeeds (fuel : ℕ) (ps : PrivacySettings)
    (content : ContentInput) :
    analyzeContent fuel ps content =
      { success := false, biasDetected := none, confidence := none,
        error := some "this.extractContext is not a function" } := by
  unfold analyzeContent
  rw [analyzeContentE_eq]

/-- C3: the claim says disparate-impact ratios `{A: 0.5, B: 0.9}` with
systematic-bias severity `low` and no systematic-bias patterns make
`mitigateBias` apply exactly the `reweighting` strategy and return a plan.
In fact `needsMitigation` evaluates the undeclared identifier
`MITIGATION_THRESHOLD`, throws a ReferenceError, and `mitigateBias`
catches it and returns `null` (`none`) — even though `determineStrategies`
would indeed have selected exactly `reweighting` for this input. -/
theorem c3_mitigateBias_returns_null (model : String)
    (evalOutcome : Except String MitigationPerformance)
    (metadata : List (String × List String)) :
    mitigateBias model evalOutcome metadata
      { disparateImpact := [("A", 1/2), ("B", 9/10)],
        systematicBias := { patterns := [], severity := "low" } } = none ∧
    determineStrategies
      { disparateImpact := [("A", 1/2), ("B", 9/10)],
        systematicBias := { patterns := [], severity := "low" } } =
      ["reweighting"] := by
  refine ⟨rfl, ?_⟩
  norm_num [determineStrategies]
  decide

/-- C6: with the recorded consent flag false, `processData` fails with the
human-readable consent reason, its result is independent of the input (so
nothing of the input is anonymized or analyzed), and the surrounding
`analyzeContent` request ends in a failure result with no partial report. -/
theorem c6_consent_gate (ps : PrivacySettings) (content : ContentInput) (fuel : ℕ)
    (h : ps.consentStatus = false) :
    processData ps content =
      { success := false, data := none, error := some "User consent not provided" } ∧
    (∀ other : ContentInput, processData ps other = processData ps content) ∧
    (analyzeContent fuel ps content).success = false ∧
    (analyzeContent fuel ps content).biasDetected = none := by
  refine ⟨by simp [processData, h], fun other => by simp [processData, h], ?_, ?_⟩ <;>
    · unfold analyzeContent
      rw [analyzeContentE_eq]

theorem c6_consent_gate_witness :
    processData defaultPrivacySettings
      { text := some "hello world".toList, userIdentifiers := some "user-1",
        location := none, features := none } =
      { success := false, data := none, error := some "User consent not provided" } ∧
    (∀ other : ContentInput,
      processData defaultPrivacySettings other =
        processData defaultPrivacySettings
          { text := some "hello world".toList, userIdentifiers := some "user-1",
            location := none, features := none }) ∧
    (analyzeContent 3 defaultPrivacySettings
      { text := some "hello world".toList, userIdentifiers := some "user-1",
        location := none, features := none }).success = false ∧
    (analyzeContent 3 defaultPrivacySettings
      { text := some "hello world".toList, userIdentifiers := some "user-1",
        location := none, features := none }).biasDetected = none :=
  c6_consent_gate defaultPrivacySettings _ 3 rfl

/-- C7: `updateModel` fails with `'Model not found'` when the id is
unknown; when the model (and its metadata) exists it bumps exactly the
patch component, so the new version is strictly greater than the old one
in the lexicographic order on `(major, minor, patch)`. -/
theorem c7_updateModel_version (now : String) (s : MMState) (modelId : String)
    (cfg : ModelConfig) :
    (lookupA s.models modelId = none →
      updateModel now s modelId cfg =
        ({ success := false, version := none, error := some "Model not found" }, s)) ∧
    (∀ sm md, lookupA s.models modelId = some sm →
      lookupA s.modelMetadata modelId = some md →
      (updateModel now s modelId cfg).1 =
        { success := true, version := some (incrementVersion md.version),
          error := none } ∧
      lookupA (updateModel now s modelId cfg).2.modelMetadata modelId =
        some { version := incrementVersion md.version, lastUpdated := now,
               parameters := cfg.parameters, performance := md.performance } ∧
      incrementVersion md.version =
        (md.version.1, md.version.2.1, md.version.2.2 + 1) ∧
      versionLt md.version (incrementVersion md.version)) := by
  constructor
  · intro h
    simp [updateModel, h]
  · intro sm md h1 h2
    refine ⟨?_, ?_, rfl, ?_⟩
    · simp [updateModel, h1, h2]
    · simp [updateModel, h1, h2, lookupA_setA_self]
    · exact Or.inr ⟨rfl, Or.inr ⟨rfl, Nat.lt_succ_self _⟩⟩

/-- A concrete model-manager metadata record used by witnesses. -/
def wMeta : Metadata :=
  { version := (2, 3, 7), lastUpdated := "t0", parameters := none,
    performance := [("t0", [("accuracy", 1/2)])] }

/-- A concrete model-manager state used by witnesses. -/
def wState : MMState :=
  { models := [("m1", { parameters := none, data := none })],
    modelMetadata := [("m1", wMeta)] }

theorem c7_updateModel_version_witness :
    (updateModel "t1" { models := [], modelMetadata := [] } "m1"
        { parameters := none } =
      ({ success := false, version := none, error := some "Model not found" },
       { models := [], modelMetadata := [] })) ∧
    ((updateModel "t1" wState "m1" { parameters := none }).1 =
      { success := true, version := some (2, 3, 8), error := none } ∧
     lookupA (updateModel "t1" wState "m1" { parameters := none }).2.modelMetadata
        "m1" =
       some { version := (2, 3, 8), lastUpdated := "t1", parameters := none,
              performance := wMeta.performance } ∧
     incrementVersion wMeta.version = (2, 3, 8) ∧
     versionLt wMeta.version (incrementVersion wMeta.version)) := by
  refine ⟨(c7_updateModel_version "t1" _ "m1" _).1 rfl, ?_⟩
  exact (c7_updateModel_version "t1" wState "m1" { parameters := none }).2
    { parameters := none, data := none } wMeta rfl rfl

/-- C8: when the remote fetch fails, `initializeModel` raises nothing and
returns `{success: true, modelId}`, storing model data synthesized locally
from the configuration by `getFallbackModelData` and tagged
`fallbackMode = true`. -/
theorem c8_initializeModel_fallback (now : String) (s : MMState) (modelId : String)
    (cfg : ModelConfig) :
    (initializeModel none now s modelId cfg).1 =
      { success := true, modelId := some modelId, error := none } ∧
    lookupA (initializeModel none now s modelId cfg).2.models modelId =
      some { parameters := cfg.parameters,
             data := some (getFallbackModelData modelId cfg) } ∧
    (getFallbackModelData modelId cfg).fallbackMode = true := by
  refine ⟨rfl, ?_, rfl⟩
  simp [initializeModel, lookupA_setA_self]

/-- C9: re-initializing an already-initialized model unconditionally
overwrites its metadata with a fresh record: version reset to `1.0.0` and
performance history reset to empty, whatever was stored before. -/
theorem c9_reinitialize_resets (fetchResult : Option ModelData) (now : String)
    (s : MMState) (modelId : String) (cfg : ModelConfig) (oldMd : Metadata)
    (_h : lookupA s.modelMetadata modelId = some oldMd) :
    lookupA (initializeModel fetchResult now s modelId cfg).2.modelMetadata modelId =
      some { version := (1, 0, 0), lastUpdated := now,
             parameters := cfg.parameters, performance := [] } := by
  simp [initializeModel, lookupA_setA_self]

theorem c9_reinitialize_resets_witness :
    lookupA (initializeModel none "t2" wState "m1"
        { parameters := none }).2.modelMetadata "m1" =
      some { version := (1, 0, 0), lastUpdated := "t2",
             parameters := none, performance := [] } :=
  c9_reinitialize_resets none "t2" wState "m1" { parameters := none } wMeta rfl

/-- C10: `updateSettings` spread-merges the partial argument over the
stored settings: each absent field keeps its previous value, each present
field takes the argument's value, and the returned `{success, settings}`
is exactly the newly stored state. -/
theorem c10_updateSettings_merge (ps : PrivacySettings) (s : PartialSettings) :
    (updateSettings ps s).1.success = true ∧
    (updateSettings ps s).2 = (updateSettings ps s).1.settings ∧
    (s.dataRetentionDays = none →
      (updateSettings ps s).1.settings.dataRetentionDays = ps.dataRetentionDays) ∧
    (∀ v, s.dataRetentionDays = some v →
      (updateSettings ps s).1.settings.dataRetentionDays = v) ∧
    (s.anonymizationLevel = none →
      (updateSettings ps s).1.settings.anonymizationLevel = ps.anonymizationLevel) ∧
    (∀ v, s.anonymizationLevel = some v →
      (updateSettings ps s).1.settings.anonymizationLevel = v) ∧
    (s.consentStatus = none →
      (updateSettings ps s).1.settings.consentStatus = ps.consentStatus) ∧
    (∀ v, s.consentStatus = some v →
      (updateSettings ps s).1.settings.consentStatus = v) := by
  refine ⟨rfl, rfl, ?_, ?_, ?_, ?_, ?_, ?_⟩ <;>
    first
    | (intro h; simp [updateSettings, h])
    | (intro v h; simp [updateSettings, h])

theorem c10_updateSettings_merge_witness :
    (updateSettings defaultPrivacySettings
        { dataRetentionDays := none, anonymizationLevel := some "low",
          consentStatus := some true }).1.settings.dataRetentionDays = 30 ∧
    (updateSettings defaultPrivacySettings
        { dataRetentionDays := none, anonymizationLevel := some "low",
          consentStatus := some true }).1.settings.anonymizationLevel = "low" ∧
    (updateSettings defaultPrivacySettings
        { dataRetentionDays := none, anonymizationLevel := some "low",
          consentStatus := some true }).1.settings.consentStatus = true := by
  obtain ⟨_, _, h3, _, _, h6, _, h8⟩ :=
    c10_updateSettings_merge defaultPrivacySettings
      { dataRetentionDays := none, anonymizationLevel := some "low",
        consentStatus := some true }
  exact ⟨h3 rfl, h6 "low" rfl, h8 true rfl⟩

theorem jsDiv_none_right (a : JsNum) : jsDiv a none = none := by
  cases a <;> rfl

theorem predictionSkewness_none (preds : List ℚ) : predictionSkewness preds = none := by
  simp only [predictionSkewness, calculateSkewness, tensorAsNumber]
  rw [show jsPow3 none = none from rfl]
  exact jsDiv_none_right _

/-- C5: the claim says `skewed_predictions` (severity medium) is flagged
exactly when the absolute skewness exceeds 0.5, and `underrepresentation`
(severity high) exactly when some value-share is below 0.10. In fact
`skewed_predictions` is NEVER flagged: `detectSystematicBias` passes the tf
tensors `tf.mean(...)` and `tf.moments(...).variance.sqrt()` — not numbers —
into `calculateSkewness`, so the computed skewness is `NaN` and the
`skewness > 0.5` test is always false (the test also uses the raw skewness,
not its absolute value). The concrete batch `[0,0,0,0,1]` has true skewness
1.5 yet produces no pattern and severity `low`. -/
theorem c5_skewed_predictions_never_flagged :
    detectSystematicBias [0, 0, 0, 0, 1] [] =
      { patterns := [], severity := "low" } ∧
    (∀ (preds : List ℚ) (metadata : List (String × List String)),
      (detectSystematicBias preds metadata).patterns.filter
        (fun p => p.ptype == "skewed_predictions") = []) := by
  constructor
  · rfl
  · intro preds metadata
    simp only [detectSystematicBias, predictionSkewness_none]
    by_cases h : (checkRepresentation metadata).isEmpty <;>
      simp [h, jsGt, underrepresentationPattern]

/-- The scanned text of the C2 scenario. -/
def c2Text : List Char := "he is assumed to be the manager".toList

theorem execRegex_c2 :
    execRegex genderAssumedPattern.alts c2Text =
      some (0, "he is assumed".toList) := by decide

/-- C2: the claim says scanning `"he is assumed to be the manager"` with
the gender pattern of weight 0.8 yields exactly one BiasInstance, score
0.8 and severity `medium`. In fact the scan never terminates: the regex
has no `g` flag, so `exec` keeps returning the first match and the
`while` loop in `findPatternMatches` never exits (for every fuel bound the
loop is still running). Moreover, even on a single match the score 0.8
would map to severity `high`, not `medium`, under `calculateSeverity`. -/
theorem c2_gender_scan_never_terminates :
    (∀ fuel, findPatternMatchesFuel fuel (some c2Text) genderAssumedPattern = none) ∧
    calculateSeverity genderAssumedPattern.weight = "high" ∧
    calculateSeverity genderAssumedPattern.weight ≠ "medium" := by
  refine ⟨?_, ?_, ?_⟩
  · intro fuel
    induction fuel with
    | zero => rfl
    | succ n ih => simp [findPatternMatchesFuel, execRegex_c2, ih]
  · norm_num [calculateSeverity, genderAssumedPattern]
  · norm_num [calculateSeverity, genderAssumedPattern]
    decide

/-! ### Lemmas about the spread min/max folds -/

theorem foldl_min_le_init (l : List ℚ) (a : ℚ) : l.foldl min a ≤ a := by
  induction l generalizing a with
  | nil => simp
  | cons b t ih => exact le_trans (ih (min a b)) (min_le_left a b)

theorem foldl_min_le_mem (l : List ℚ) (a x : ℚ) (hx : x ∈ l) : l.foldl min a ≤ x := by
  induction l generalizing a with
  | nil => cases hx
  | cons b t ih =>
    rcases List.mem_cons.mp hx with h | h
    · subst h
      exact le_trans (foldl_min_le_init t (min a x)) (min_le_right a x)
    · exact ih (min a b) h

theorem foldl_min_mem (l : List ℚ) (a : ℚ) :
    l.foldl min a = a ∨ l.foldl min a ∈ l := by
  induction l generalizing a with
  | nil => left; rfl
  | cons b t ih =>
    rcases ih (min a b) with h | h
    · rcases min_choice a b with h2 | h2
      · left; rw [List.foldl_cons, h, h2]
      · right; rw [List.foldl_cons, h, h2]; exact List.mem_cons_self b t
    · right; exact List.mem_cons_of_mem b h

theorem foldl_max_init_le (l : List ℚ) (a : ℚ) : a ≤ l.foldl max a := by
  induction l generalizing a with
  | nil => simp
  | cons b t ih => exact le_trans (le_max_left a b) (ih (max a b))

theorem foldl_max_mem_le (l : List ℚ) (a x : ℚ) (hx : x ∈ l) : x ≤ l.foldl max a := by
  induction l generalizing a with
  | nil => cases hx
  | cons b t ih =>
    rcases List.mem_cons.mp hx with h | h
    · subst h
      exact le_trans (le_max_right a x) (foldl_max_init_le t (max a x))
    · exact ih (max a b) h

theorem foldl_max_mem (l : List ℚ) (a : ℚ) :
    l.foldl max a = a ∨ l.foldl max a ∈ l := by
  induction l generalizing a with
  | nil => left; rfl
  | cons b t ih =>
    rcases ih (max a b) with h | h
    · rcases max_choice a b with h2 | h2
      · left; rw [List.foldl_cons, h, h2]
      · right; rw [List.foldl_cons, h, h2]; exact List.mem_cons_self b t
    · right; exact List.mem_cons_of_mem b h

theorem jsMinQ_le (l : List ℚ) (x : ℚ) (hx : x ∈ l) : jsMinQ l ≤ x := by
  cases l with
  | nil => cases hx
  | cons a t =>
    rcases List.mem_cons.mp hx with h | h
    · subst h; exact foldl_min_le_init t x
    · exact foldl_min_le_mem t a x h

theorem jsMinQ_mem (l : List ℚ) (h : l ≠ []) : jsMinQ l ∈ l := by
  cases l with
  | nil => exact absurd rfl h
  | cons a t =>
    rcases foldl_min_mem t a with h2 | h2
    · rw [show jsMinQ (a :: t) = t.foldl min a from rfl, h2]
      exact List.mem_cons_self a t
    · exact List.mem_cons_of_mem a h2

theorem jsMaxQ_ge (l : List ℚ) (x : ℚ) (hx : x ∈ l) : x ≤ jsMaxQ l := by
  cases l with
  | nil => cases hx
  | cons a t =>
    rcases List.mem_cons.mp hx with h | h
    · subst h; exact foldl_max_init_le t x
    · exact foldl_max_mem_le t a x h

theorem jsMaxQ_mem (l : List ℚ) (h : l ≠ []) : jsMaxQ l ∈ l := by
  cases l with
  | nil => exact absurd rfl h
  | cons a t =>
    rcases foldl_max_mem t a with h2 | h2
    · rw [show jsMaxQ (a :: t) = t.foldl max a from rfl, h2]
      exact List.mem_cons_self a t
    · exact List.mem_cons_of_mem a h2

theorem rate_nonneg (preds : List ℚ) (attrs : List String) (k : String) :
    0 ≤ rate preds attrs k :=
  div_nonneg (Nat.cast_nonneg _) (Nat.cast_nonneg _)

theorem groupRates_nonneg (preds : List ℚ) (attrs : List String) (x : ℚ)
    (hx : x ∈ groupRates preds attrs) : 0 ≤ x := by
  obtain ⟨k, -, rfl⟩ := List.mem_map.mp hx
  exact rate_nonneg preds attrs k

/-- C4 (amended): whenever `calculateDisparateImpact` produces a finite
ratio (it is `NaN` when every group's favorable rate is 0), that ratio
lies in the closed interval `[0, 1]` — it CAN be 0, contrary to the
claim's `(0, 1]` — and it equals 1 exactly when all attribute-value
partitions have identical favorable-outcome rates. -/
theorem c4_disparate_impact_range (preds : List ℚ) (attrs : List String) (r : ℚ)
    (h : calculateDisparateImpact preds attrs = some r) :
    0 ≤ r ∧ r ≤ 1 ∧
    (r = 1 ↔ ∀ x ∈ groupRates preds attrs, ∀ y ∈ groupRates preds attrs, x = y) := by
  unfold calculateDisparateImpact at h
  by_cases hmax : jsMaxQ (groupRates preds attrs) = 0
  · simp [hmax] at h
  · simp only [hmax, if_false, Option.some.injEq] at h
    have hne : groupRates preds attrs ≠ [] := by
      intro hnil
      exact hmax (by rw [hnil]; rfl)
    have hmaxmem := jsMaxQ_mem (groupRates preds attrs) hne
    have hminmem := jsMinQ_mem (groupRates preds attrs) hne
    have hmaxpos : 0 < jsMaxQ (groupRates preds attrs) :=
      lt_of_le_of_ne (groupRates_nonneg preds attrs _ hmaxmem) (Ne.symm hmax)
    have hminnn : 0 ≤ jsMinQ (groupRates preds attrs) :=
      groupRates_nonneg preds attrs _ hminmem
    have hminlemax : jsMinQ (groupRates preds attrs) ≤ jsMaxQ (groupRates preds attrs) :=
      jsMinQ_le _ _ hmaxmem
    subst h
    refine ⟨div_nonneg hminnn (le_of_lt hmaxpos), (div_le_one hmaxpos).mpr hminlemax, ?_⟩
    constructor
    · intro h1 x hx y hy
      have hminmax : jsMinQ (groupRates preds attrs) = jsMaxQ (groupRates preds attrs) := by
        have := (div_eq_iff (ne_of_gt hmaxpos)).mp h1
        simpa using this
      have hx2 : x = jsMinQ (groupRates preds attrs) :=
        le_antisymm (hminmax ▸ jsMaxQ_ge _ _ hx) (jsMinQ_le _ _ hx)
      have hy2 : y = jsMinQ (groupRates preds attrs) :=
        le_antisymm (hminmax ▸ jsMaxQ_ge _ _ hy) (jsMinQ_le _ _ hy)
      rw [hx2, hy2]
    · intro hall
      rw [hall _ hminmem _ hmaxmem]
      exact div_self (ne_of_gt hmaxpos)

theorem c4_disparate_impact_range_witness :
    0 ≤ (1 : ℚ) ∧ (1 : ℚ) ≤ 1 ∧
    ((1 : ℚ) = 1 ↔ ∀ x ∈ groupRates [9/10, 9/10] ["A", "B"],
      ∀ y ∈ groupRates [9/10, 9/10] ["A", "B"], x = y) :=
  c4_disparate_impact_range [9/10, 9/10] ["A", "B"] 1 (by
    have hltA : ((4 : ℚ)/5 < 9/10) := by norm_num
    have hrA : rate [9/10, 9/10] ["A", "B"] "A" = 1 := by
      simp [rate, favorableCount, groupCount, hltA, List.count_cons]
    have hrB : rate [9/10, 9/10] ["A", "B"] "B" = 1 := by
      simp [rate, favorableCount, groupCount, hltA, List.count_cons]
    have hgr : groupRates [9/10, 9/10] ["A", "B"] = [1, 1] := by
      show (jsKeys ["A", "B"]).map (rate [9/10, 9/10] ["A", "B"]) = [1, 1]
      rw [show jsKeys ["A", "B"] = ["A", "B"] by decide]
      simp only [List.map_cons, List.map_nil]
      rw [hrA, hrB]
    show (if jsMaxQ (groupRates [9/10, 9/10] ["A", "B"]) = 0 then none
      else some (jsMinQ (groupRates [9/10, 9/10] ["A", "B"]) /
        jsMaxQ (groupRates [9/10, 9/10] ["A", "B"]))) = some 1
    rw [hgr]
    norm_num [jsMinQ, jsMaxQ])

/-- C4 counterexample: the batch `[0.9, 0.1]` with attribute values
`["A", "B"]` has favorable rates 1 for group A and 0 for group B, so the
computed disparate-impact ratio is 0, which is not in the claimed open
interval `(0, 1]`. -/
theorem c4_counterexample :
    calculateDisparateImpact [9/10, 1/10] ["A", "B"] = some 0 ∧
    ¬ (0 : ℚ) > 0 := by
  constructor
  · have hltA : ((4 : ℚ)/5 < 9/10) := by norm_num
    have hltB : ¬ ((4 : ℚ)/5 < 10⁻¹) := by norm_num
    have hrA : rate [9/10, 1/10] ["A", "B"] "A" = 1 := by
      simp [rate, favorableCount, groupCount, hltA, hltB, List.count_cons]
    have hrB : rate [9/10, 1/10] ["A", "B"] "B" = 0 := by
      simp [rate, favorableCount, groupCount, hltA, hltB, List.count_cons]
    have hgr : groupRates [9/10, 1/10] ["A", "B"] = [1, 0] := by
      show (jsKeys ["A", "B"]).map (rate [9/10, 1/10] ["A", "B"]) = [1, 0]
      rw [show jsKeys ["A", "B"] = ["A", "B"] by decide]
      simp only [List.map_cons, List.map_nil]
      rw [hrA, hrB]
    show (if jsMaxQ (groupRates [9/10, 1/10] ["A", "B"]) = 0 then none
      else some (jsMinQ (groupRates [9/10, 1/10] ["A", "B"]) /
        jsMaxQ (groupRates [9/10, 1/10] ["A", "B"]))) = some 0
    rw [hgr]
    norm_num [jsMinQ, jsMaxQ]
  · exact lt_irrefl 0

end BiasSpec
